import Mathlib

/-!
Shallow embedding of the Match Day backend (src/main.py): a FastAPI CRUD
service over four tables (players, partite, formazioni, gol) with one piece
of domain logic, the role-weighted overall rating.

Modelling conventions, each justified against the source:

* The relational store is a `Store` record of four lists plus the
  autoincrement counters of the three integer-keyed tables.  Player ids are
  uuid4 strings in the source; they enter the model as an explicit
  `fresh_id` argument of `create_player`.
* `db.query(T).filter(T.id == x).first()` becomes `List.find?`.
* Wall-clock time (`datetime.utcnow()`) enters as an explicit `now : Nat`
  argument; `date`/`time` values and their string rendering are opaque.
* Request handlers that mutate the store inside a single transaction and
  commit once at the end (PUT /api/partite/id/formazioni, POST /api/gol)
  return `Except ApiError (Store × result)`: on `error` the transaction is
  rolled back (explicitly, or by the session close in `get_db`), so the
  caller's store is the unchanged pre-state.  POST /api/formazioni commits
  once per list entry, so it returns the store alongside the outcome: a
  mid-list failure keeps the entries already committed.
* The database enforces the declared schema constraints at flush/commit
  time: the UniqueConstraint on formazioni (partita_id, giocatore_id) and
  the foreign keys on formazioni and gol (the production backend is
  PostgreSQL: the source normalises Render's postgres:// URL).  A constraint
  violation inside a try/except becomes the handler's HTTP 400; an
  unhandled one is `ApiError.integrityError` (an HTTP 500).
* `int(x / 7)` and `int(x / 8)` in `calculate_overall_rating` are Python
  float division then truncation.  For the weighted sums reachable from
  skills in [1,10] (numerators at most 80) the nearest double to n/7 or n/8
  is never on the wrong side of an integer, so truncation equals natural
  division; the embedding uses `Nat` division.
* Pydantic request models: a field with `default=5` parses an omitted JSON
  field to 5 (`PlayerSkillsInput.parse`); `ge=1, le=10` bounds appear as
  hypotheses of the theorems that need them.  Response serialisation
  (`Player`, `PlayerDetail`) is not modelled except where a claim needs the
  returned record.
-/

namespace Matchday

/-- PlayerRole enum from src/main.py. -/
inductive PlayerRole where
  | GOALKEEPER
  | DEFENDER
  | MIDFIELDER
  | FORWARD
deriving DecidableEq, Repr

/-- SquadraEnum from src/main.py: side A or B. -/
inductive SquadraEnum where
  | A
  | B
deriving DecidableEq, Repr

/-- TipoGolEnum from src/main.py. -/
inductive TipoGolEnum where
  | NORMALE
  | RIGORE
  | AUTORETE
  | PUNIZIONE
deriving DecidableEq, Repr

/-- One row of the players table (class PlayerDB). -/
structure PlayerDBRec where
  id : String
  name : String
  role : PlayerRole
  photo_url : Option String
  speed : Nat
  passing : Nat
  attack : Nat
  defense : Nat
  technique : Nat
  goalkeeping : Nat
  heading : Nat
  stamina : Nat
  leadership : Nat
  created_at : Nat
  updated_at : Nat
  goals_scored : Int
  assists : Int
  gold_medals : Int
  silver_medals : Int
  bronze_medals : Int
deriving DecidableEq, Repr

/-- One row of the partite table (class PartitaDB). -/
structure PartitaRec where
  id : Nat
  data_partita : Nat
  ora_inizio : Option String
  nome_squadra_a : Option String
  nome_squadra_b : Option String
  gol_squadra_a : Int
  gol_squadra_b : Int
  stadio : Option String
  arbitro : Option String
  note : Option String
  numero_giocatori_squadra : Option Int
deriving DecidableEq, Repr

/-- One row of the formazioni table (class FormazioneDB); the table carries
UniqueConstraint (partita_id, giocatore_id). -/
structure FormazioneRec where
  id : Nat
  partita_id : Nat
  giocatore_id : String
  squadra : SquadraEnum
  numero_maglia : Option Int
  capitano : Bool
deriving DecidableEq, Repr

/-- One row of the gol table (class GolDB). -/
structure GolRec where
  id : Nat
  partita_id : Nat
  giocatore_id : String
  minuto : Int
  squadra : SquadraEnum
  tipo_gol : TipoGolEnum
  assist_giocatore_id : Option String
deriving DecidableEq, Repr

/-- The relational store: the four tables plus the autoincrement counters of
the integer-keyed tables. -/
structure Store where
  players : List PlayerDBRec
  partite : List PartitaRec
  formazioni : List FormazioneRec
  gol : List GolRec
  next_partita_id : Nat
  next_formazione_id : Nat
  next_gol_id : Nat
deriving DecidableEq, Repr

/-- The freshly created database (Base.metadata.create_all on an empty
database; autoincrement ids start at 1). -/
def initStore : Store :=
  { players := [], partite := [], formazioni := [], gol := []
    next_partita_id := 1, next_formazione_id := 1, next_gol_id := 1 }

/-- Outcomes a handler can surface: HTTPException 404, HTTPException 400,
HTTPException 500, or an unhandled database IntegrityError (also an HTTP
500, raised at commit by a constraint the handler did not pre-check). -/
inductive ApiError where
  | notFound (detail : String)
  | badRequest (detail : String)
  | serverError (detail : String)
  | integrityError
deriving DecidableEq, Repr

/-- calculate_overall_rating from src/main.py.  The if/elif chain defaults
to the FORWARD formula for any role not explicitly matched.  Python's
int(x / d) truncates toward zero; on the Nat inputs here it is Nat
division (see the header note on float exactness). -/
def calculate_overall_rating (p : PlayerDBRec) : Nat :=
  if p.role = PlayerRole.GOALKEEPER then
    (p.goalkeeping * 3 + p.defense * 2 + p.technique + p.leadership) / 7
  else if p.role = PlayerRole.DEFENDER then
    (p.defense * 3 + p.heading * 2 + p.passing + p.stamina + p.leadership) / 8
  else if p.role = PlayerRole.MIDFIELDER then
    (p.passing * 2 + p.technique * 2 + p.stamina + p.attack + p.defense + p.leadership) / 8
  else
    (p.attack * 3 + p.speed * 2 + p.technique + p.heading + p.stamina) / 8

/-- The nine validated skill values (Pydantic model PlayerSkills). -/
structure PlayerSkills where
  speed : Nat
  passing : Nat
  attack : Nat
  defense : Nat
  technique : Nat
  goalkeeping : Nat
  heading : Nat
  stamina : Nat
  leadership : Nat
deriving DecidableEq, Repr

/-- Modelled from the spec: the role-specific weighted formula of section
4.1, written from the spec's own text so it can be compared with the
source's `calculate_overall_rating`. -/
def rating_spec (role : PlayerRole) (sk : PlayerSkills) : Nat :=
  match role with
  | .GOALKEEPER => (sk.goalkeeping * 3 + sk.defense * 2 + sk.technique + sk.leadership) / 7
  | .DEFENDER => (sk.defense * 3 + sk.heading * 2 + sk.passing + sk.stamina + sk.leadership) / 8
  | .MIDFIELDER => (sk.passing * 2 + sk.technique * 2 + sk.stamina + sk.attack + sk.defense + sk.leadership) / 8
  | .FORWARD => (sk.attack * 3 + sk.speed * 2 + sk.technique + sk.heading + sk.stamina) / 8

/-- The skill block of a stored player row. -/
def playerSkillsOf (p : PlayerDBRec) : PlayerSkills :=
  { speed := p.speed, passing := p.passing, attack := p.attack
    defense := p.defense, technique := p.technique, goalkeeping := p.goalkeeping
    heading := p.heading, stamina := p.stamina, leadership := p.leadership }

/-- All nine skills lie in the Pydantic range ge=1, le=10. -/
def skillsInRange (p : PlayerDBRec) : Prop :=
  (1 ≤ p.speed ∧ p.speed ≤ 10) ∧ (1 ≤ p.passing ∧ p.passing ≤ 10) ∧
  (1 ≤ p.attack ∧ p.attack ≤ 10) ∧ (1 ≤ p.defense ∧ p.defense ≤ 10) ∧
  (1 ≤ p.technique ∧ p.technique ≤ 10) ∧ (1 ≤ p.goalkeeping ∧ p.goalkeeping ≤ 10) ∧
  (1 ≤ p.heading ∧ p.heading ≤ 10) ∧ (1 ≤ p.stamina ∧ p.stamina ≤ 10) ∧
  (1 ≤ p.leadership ∧ p.leadership ≤ 10)

instance (p : PlayerDBRec) : Decidable (skillsInRange p) := by
  unfold skillsInRange; infer_instance

/-- The request-side skills object before Pydantic fills defaults: each of
the nine JSON fields may be omitted. -/
structure PlayerSkillsInput where
  speed : Option Nat := none
  passing : Option Nat := none
  attack : Option Nat := none
  defense : Option Nat := none
  technique : Option Nat := none
  goalkeeping : Option Nat := none
  heading : Option Nat := none
  stamina : Option Nat := none
  leadership : Option Nat := none
deriving DecidableEq, Repr

/-- Pydantic parsing of PlayerSkills: every omitted field takes the
declared default 5 (Field(ge=1, le=10, default=5)). -/
def PlayerSkillsInput.parse (i : PlayerSkillsInput) : PlayerSkills :=
  { speed := i.speed.getD 5, passing := i.passing.getD 5, attack := i.attack.getD 5
    defense := i.defense.getD 5, technique := i.technique.getD 5
    goalkeeping := i.goalkeeping.getD 5, heading := i.heading.getD 5
    stamina := i.stamina.getD 5, leadership := i.leadership.getD 5 }

/-- Pydantic model PlayerCreate (= PlayerBase). -/
structure PlayerCreate where
  name : String
  role : PlayerRole
  skills : PlayerSkills
  goals_scored : Int := 0
  assists : Int := 0
  gold_medals : Int := 0
  silver_medals : Int := 0
  bronze_medals : Int := 0
deriving DecidableEq, Repr

/-- Pydantic model PlayerUpdate: every field optional. -/
structure PlayerUpdate where
  name : Option String := none
  role : Option PlayerRole := none
  skills : Option PlayerSkills := none
  goals_scored : Option Int := none
  assists : Option Int := none
  gold_medals : Option Int := none
  silver_medals : Option Int := none
  bronze_medals : Option Int := none
deriving DecidableEq, Repr

/-- POST /api/players (create_player).  `fresh_id` is the uuid4 the source
generates; `now` is datetime.utcnow().  After building the row from the
request, the handler overwrites goalkeeping with 8 whenever the role is
GOALKEEPER — regardless of the value the request carried. -/
def create_player (req : PlayerCreate) (fresh_id : String) (now : Nat)
    (s : Store) : Store × PlayerDBRec :=
  let base : PlayerDBRec :=
    { id := fresh_id, name := req.name, role := req.role, photo_url := none
      speed := req.skills.speed, passing := req.skills.passing
      attack := req.skills.attack, defense := req.skills.defense
      technique := req.skills.technique, goalkeeping := req.skills.goalkeeping
      heading := req.skills.heading, stamina := req.skills.stamina
      leadership := req.skills.leadership
      created_at := now, updated_at := now
      goals_scored := req.goals_scored, assists := req.assists
      gold_medals := req.gold_medals, silver_medals := req.silver_medals
      bronze_medals := req.bronze_medals }
  let row := if req.role = PlayerRole.GOALKEEPER then { base with goalkeeping := 8 } else base
  ({ s with players := s.players ++ [row] }, row)

/-- The field-by-field overwrite chain of update_player: only fields present
in the request change; a supplied skills object overwrites all nine skill
columns; updated_at is always refreshed. -/
def applyPlayerUpdate (u : PlayerUpdate) (now : Nat) (p : PlayerDBRec) : PlayerDBRec :=
  let p1 := match u.name with | some v => { p with name := v } | none => p
  let p2 := match u.role with | some v => { p1 with role := v } | none => p1
  let p3 := match u.skills with
    | some sk =>
      { p2 with
        speed := sk.speed
        passing := sk.passing
        attack := sk.attack
        defense := sk.defense
        technique := sk.technique
        goalkeeping := sk.goalkeeping
        heading := sk.heading
        stamina := sk.stamina
        leadership := sk.leadership }
    | none => p2
  let p4 := match u.goals_scored with | some v => { p3 with goals_scored := v } | none => p3
  let p5 := match u.assists with | some v => { p4 with assists := v } | none => p4
  let p6 := match u.gold_medals with | some v => { p5 with gold_medals := v } | none => p5
  let p7 := match u.silver_medals with | some v => { p6 with silver_medals := v } | none => p6
  let p8 := match u.bronze_medals with | some v => { p7 with bronze_medals := v } | none => p7
  { p8 with updated_at := now }

/-- PUT /api/players/id (update_player): 404 when the player is absent,
otherwise the in-place partial update followed by commit. -/
def update_player (pid : String) (u : PlayerUpdate) (now : Nat)
    (s : Store) : Except ApiError (Store × PlayerDBRec) :=
  match s.players.find? (fun q => q.id == pid) with
  | none => .error (.notFound "Player not found")
  | some p =>
    let q := applyPlayerUpdate u now p
    .ok ({ s with players := s.players.map (fun r => if r.id == pid then q else r) }, q)

/-- True when some formazioni or gol row still references the player: the
database would reject the delete of the players row (no cascade is declared
anywhere in the application). -/
def playerReferenced (s : Store) (pid : String) : Bool :=
  s.formazioni.any (fun f => f.giocatore_id == pid) ||
  s.gol.any (fun g => g.giocatore_id == pid || g.assist_giocatore_id == some pid)

/-- DELETE /api/players/id (delete_player).  The photo cleanup (Cloudinary
or local file) is external, best-effort and swallowed; it is not modelled.
The commit fails with an unhandled IntegrityError when foreign keys still
point at the row. -/
def delete_player (pid : String) (s : Store) : Except ApiError Store :=
  match s.players.find? (fun q => q.id == pid) with
  | none => .error (.notFound "Player not found")
  | some _ =>
    if playerReferenced s pid then .error .integrityError
    else .ok { s with players := s.players.filter (fun q => ¬ q.id == pid) }

/-- The fixed extension allow-list of upload_player_photo. -/
def allowed_extensions : List String := [".jpg", ".jpeg", ".png", ".gif", ".webp"]

/-- POST /api/players/id/photo (upload_player_photo).  `ext` is the
lower-cased suffix of the uploaded filename; the Cloudinary/local write is
modelled by its opaque resulting `url`. -/
def upload_player_photo (pid : String) (ext : String) (url : String) (now : Nat)
    (s : Store) : Except ApiError Store :=
  match s.players.find? (fun q => q.id == pid) with
  | none => .error (.notFound "Player not found")
  | some _ =>
    if allowed_extensions.contains ext then
      .ok { s with players := s.players.map (fun q =>
              if q.id == pid then { q with photo_url := some url, updated_at := now } else q) }
    else .error (.badRequest "File type not allowed")

/-- Pydantic model PartitaCreate (= PartitaBase); time values are already
rendered to their stored string form. -/
structure PartitaCreate where
  data_partita : Nat
  ora_inizio : Option String := none
  nome_squadra_a : Option String := none
  nome_squadra_b : Option String := none
  gol_squadra_a : Int := 0
  gol_squadra_b : Int := 0
  stadio : Option String := none
  arbitro : Option String := none
  note : Option String := none
  numero_giocatori_squadra : Option Int := none
deriving DecidableEq, Repr

/-- POST /api/partite (create_partita). -/
def create_partita (req : PartitaCreate) (s : Store) : Store × PartitaRec :=
  let r : PartitaRec :=
    { id := s.next_partita_id, data_partita := req.data_partita
      ora_inizio := req.ora_inizio
      nome_squadra_a := req.nome_squadra_a, nome_squadra_b := req.nome_squadra_b
      gol_squadra_a := req.gol_squadra_a, gol_squadra_b := req.gol_squadra_b
      stadio := req.stadio, arbitro := req.arbitro, note := req.note
      numero_giocatori_squadra := req.numero_giocatori_squadra }
  ({ s with partite := s.partite ++ [r], next_partita_id := s.next_partita_id + 1 }, r)

/-- Pydantic model PartitaUpdate under model_dump(exclude_unset=True): a
`some` field was provided and overwrites the column.  (A field provided as
an explicit JSON null, which would write NULL, is not modelled; no claim
touches partita field updates.) -/
structure PartitaUpdate where
  data_partita : Option Nat := none
  ora_inizio : Option String := none
  nome_squadra_a : Option String := none
  nome_squadra_b : Option String := none
  gol_squadra_a : Option Int := none
  gol_squadra_b : Option Int := none
  stadio : Option String := none
  arbitro : Option String := none
  note : Option String := none
  numero_giocatori_squadra : Option Int := none
deriving DecidableEq, Repr

/-- The setattr loop of update_partita. -/
def applyPartitaUpdate (u : PartitaUpdate) (pa : PartitaRec) : PartitaRec :=
  { pa with
    data_partita := u.data_partita.getD pa.data_partita
    ora_inizio := match u.ora_inizio with | some v => some v | none => pa.ora_inizio
    nome_squadra_a := match u.nome_squadra_a with | some v => some v | none => pa.nome_squadra_a
    nome_squadra_b := match u.nome_squadra_b with | some v => some v | none => pa.nome_squadra_b
    gol_squadra_a := u.gol_squadra_a.getD pa.gol_squadra_a
    gol_squadra_b := u.gol_squadra_b.getD pa.gol_squadra_b
    stadio := match u.stadio with | some v => some v | none => pa.stadio
    arbitro := match u.arbitro with | some v => some v | none => pa.arbitro
    note := match u.note with | some v => some v | none => pa.note
    numero_giocatori_squadra :=
      match u.numero_giocatori_squadra with
      | some v => some v
      | none => pa.numero_giocatori_squadra }

/-- PUT /api/partite/id (update_partita). -/
def update_partita (pid : Nat) (u : PartitaUpdate) (s : Store) :
    Except ApiError (Store × PartitaRec) :=
  match s.partite.find? (fun pa => pa.id == pid) with
  | none => .error (.notFound "Partita not found")
  | some pa =>
    let pa2 := applyPartitaUpdate u pa
    .ok ({ s with partite := s.partite.map (fun q => if q.id == pid then pa2 else q) }, pa2)

/-- True when some formazioni or gol row still references the match. -/
def partitaReferenced (s : Store) (pid : Nat) : Bool :=
  s.formazioni.any (fun f => f.partita_id == pid) ||
  s.gol.any (fun g => g.partita_id == pid)

/-- DELETE /api/partite/id (delete_partita): no cascade is declared, so the
commit fails with an unhandled IntegrityError when rows still reference the
match. -/
def delete_partita (pid : Nat) (s : Store) : Except ApiError Store :=
  match s.partite.find? (fun pa => pa.id == pid) with
  | none => .error (.notFound "Partita not found")
  | some _ =>
    if partitaReferenced s pid then .error .integrityError
    else .ok { s with partite := s.partite.filter (fun pa => ¬ pa.id == pid) }

/-- Pydantic model FormazioneCreate (= FormazioneBase). -/
structure FormazioneCreate where
  partita_id : Nat
  giocatore_id : String
  squadra : SquadraEnum
  numero_maglia : Option Int := none
  capitano : Bool := false
deriving DecidableEq, Repr

/-- True when the formazioni rows already hold the (partita_id,
giocatore_id) pair: the insert would violate the table's
UniqueConstraint. -/
def formazioneConflict (l : List FormazioneRec) (pid : Nat) (gid : String) : Bool :=
  l.any (fun g => g.partita_id == pid && g.giocatore_id == gid)

/-- The row an insert of `f` builds, with the next autoincrement id. -/
def mkFormazioneRec (fid : Nat) (f : FormazioneCreate) : FormazioneRec :=
  { id := fid, partita_id := f.partita_id, giocatore_id := f.giocatore_id
    squadra := f.squadra, numero_maglia := f.numero_maglia, capitano := f.capitano }

/-- db.add of a FormazioneDB row followed by flush/commit: `none` models
the database raising on the (partita_id, giocatore_id) UniqueConstraint
(both handlers catch that, roll back and answer 400). -/
def insert_formazione (s : Store) (f : FormazioneCreate) :
    Option (Store × FormazioneRec) :=
  if formazioneConflict s.formazioni f.partita_id f.giocatore_id then none
  else
    let r := mkFormazioneRec s.next_formazione_id f
    some ({ s with
            formazioni := s.formazioni ++ [r]
            next_formazione_id := s.next_formazione_id + 1 }, r)

/-- The loop of create_formazione (POST /api/formazioni).  Each iteration
checks the match and the player exist, then inserts AND COMMITS that single
entry; a failure therefore keeps everything committed so far, which is why
the store is returned on the error path too. -/
def create_formazione_go : Store → List FormazioneCreate →
    Store × Except ApiError (List FormazioneRec)
  | s, [] => (s, .ok [])
  | s, f :: rest =>
    match s.partite.find? (fun pa => pa.id == f.partita_id) with
    | none =>
      (s, .error (.notFound ("Partita with ID " ++ toString f.partita_id ++ " not found")))
    | some _ =>
      match s.players.find? (fun pl => pl.id == f.giocatore_id) with
      | none =>
        (s, .error (.notFound ("Giocatore with ID " ++ f.giocatore_id ++ " not found")))
      | some _ =>
        match insert_formazione s f with
        | none =>
          (s, .error (.badRequest ("Error creating formazione for player " ++ f.giocatore_id)))
        | some (s1, r) =>
          match create_formazione_go s1 rest with
          | (s2, .ok rs) => (s2, .ok (r :: rs))
          | (s2, .error e) => (s2, .error e)

/-- POST /api/formazioni (create_formazione). -/
def create_formazione (s : Store) (fs : List FormazioneCreate) :
    Store × Except ApiError (List FormazioneRec) :=
  create_formazione_go s fs

/-- DELETE /api/formazioni/id (delete_formazione). -/
def delete_formazione (fid : Nat) (s : Store) : Except ApiError Store :=
  match s.formazioni.find? (fun f => f.id == fid) with
  | none => .error (.notFound "Formazione not found")
  | some _ => .ok { s with formazioni := s.formazioni.filter (fun f => ¬ f.id == fid) }

/-- The loop of update_formazioni_by_partita: per entry, the body's
partita_id must equal the URL parameter (checked BEFORE the player lookup),
the player must exist, then the row is added and flushed — not committed.
Every error path rolls the whole transaction back, so only the success path
returns a store. -/
def replace_formazioni_go : Nat → Store → List FormazioneCreate →
    Except ApiError (Store × List FormazioneRec)
  | _, s, [] => .ok (s, [])
  | pid, s, f :: rest =>
    if f.partita_id ≠ pid then
      .error (.badRequest ("partita_id in body (" ++ toString f.partita_id ++
        ") must match URL parameter (" ++ toString pid ++ ")"))
    else
      match s.players.find? (fun pl => pl.id == f.giocatore_id) with
      | none => .error (.notFound ("Giocatore with ID " ++ f.giocatore_id ++ " not found"))
      | some _ =>
        match insert_formazione s f with
        | none =>
          .error (.badRequest ("Error creating formazione for player " ++ f.giocatore_id))
        | some (s1, r) =>
          match replace_formazioni_go pid s1 rest with
          | .error e => .error e
          | .ok (s2, rs) => .ok (s2, r :: rs)

/-- PUT /api/partite/id/formazioni (update_formazioni_by_partita): check
the match exists, delete its existing lineup inside the transaction, run
the validated inserts, commit once at the end.  An `error` result means the
transaction was rolled back and the caller's store is the unchanged
pre-state. -/
def update_formazioni_by_partita (s : Store) (pid : Nat)
    (fs : List FormazioneCreate) : Except ApiError (Store × List FormazioneRec) :=
  match s.partite.find? (fun pa => pa.id == pid) with
  | none => .error (.notFound "Partita not found")
  | some _ =>
    let draft := { s with formazioni := s.formazioni.filter (fun g => ¬ g.partita_id == pid) }
    replace_formazioni_go pid draft fs

/-- GET /api/partite/id/formazioni (get_formazioni_by_partita): 404 when
the filtered list is empty (the match itself is never looked up), then each
entry is joined with its player; a dangling player reference is an HTTP
500. -/
def get_formazioni_by_partita (s : Store) (pid : Nat) :
    Except ApiError (List (FormazioneRec × PlayerDBRec)) :=
  let fs := s.formazioni.filter (fun f => f.partita_id == pid)
  if fs.isEmpty then .error (.notFound "Formazioni not found for this partita")
  else
    fs.mapM (fun f =>
      match s.players.find? (fun pl => pl.id == f.giocatore_id) with
      | none =>
        .error (.serverError ("Player with ID " ++ f.giocatore_id ++
          " not found for formazione " ++ toString f.id))
      | some pl => .ok (f, pl))

/-- Pydantic model GolCreate (= GolBase). -/
structure GolCreate where
  partita_id : Nat
  giocatore_id : String
  minuto : Int
  squadra : SquadraEnum
  tipo_gol : TipoGolEnum := .NORMALE
  assist_giocatore_id : Option String := none
deriving DecidableEq, Repr

/-- Python truthiness of an Optional[str]: None and the empty string are
falsy.  create_gol guards the assist lookup with
`if gol.assist_giocatore_id:`, so an empty-string assist id skips the
existence check. -/
def strTruthy : Option String → Bool
  | none => false
  | some v => ¬ v == ""

/-- The declared foreign keys of the gol table, as the database checks them
at commit: partita_id and giocatore_id must exist (the handler already
checked those), and a non-NULL assist_giocatore_id must name a player. -/
def golFKOk (s : Store) (r : GolRec) : Bool :=
  s.partite.any (fun pa => pa.id == r.partita_id) &&
  s.players.any (fun pl => pl.id == r.giocatore_id) &&
  (match r.assist_giocatore_id with
   | none => true
   | some a => s.players.any (fun pl => pl.id == a))

/-- db.add of the GolDB row followed by db.commit.  A foreign-key
violation at commit is unhandled in the source: the transaction rolls back
and the request fails with ApiError.integrityError. -/
def commitGol (s : Store) (g : GolCreate) : Except ApiError (Store × GolRec) :=
  let r : GolRec :=
    { id := s.next_gol_id, partita_id := g.partita_id, giocatore_id := g.giocatore_id
      minuto := g.minuto, squadra := g.squadra, tipo_gol := g.tipo_gol
      assist_giocatore_id := g.assist_giocatore_id }
  if golFKOk s r then
    .ok ({ s with gol := s.gol ++ [r], next_gol_id := s.next_gol_id + 1 }, r)
  else .error .integrityError

/-- POST /api/gol (create_gol): the match and the scorer are looked up, the
assist player only when the Optional[str] is truthy, then the row is
committed. -/
def create_gol (s : Store) (g : GolCreate) : Except ApiError (Store × GolRec) :=
  match s.partite.find? (fun pa => pa.id == g.partita_id) with
  | none => .error (.notFound "Partita not found")
  | some _ =>
    match s.players.find? (fun pl => pl.id == g.giocatore_id) with
    | none => .error (.notFound "Giocatore not found")
    | some _ =>
      if strTruthy g.assist_giocatore_id then
        if (s.players.find? (fun pl => pl.id == g.assist_giocatore_id.getD "")).isSome then
          commitGol s g
        else .error (.notFound "Assist player not found")
      else commitGol s g

/-- DELETE /api/gol/id (delete_gol). -/
def delete_gol (gid : Nat) (s : Store) : Except ApiError Store :=
  match s.gol.find? (fun g => g.id == gid) with
  | none => .error (.notFound "Gol not found")
  | some _ => .ok { s with gol := s.gol.filter (fun g => ¬ g.id == gid) }

/-- GET /api/partite/id/gol (get_gol_by_partita): 404 when the match does
not exist, otherwise the filtered list — possibly empty. -/
def get_gol_by_partita (s : Store) (pid : Nat) : Except ApiError (List GolRec) :=
  match s.partite.find? (fun pa => pa.id == pid) with
  | none => .error (.notFound "Partita not found")
  | some _ => .ok (s.gol.filter (fun g => g.partita_id == pid))

/-- The store states reachable through the service's mutating endpoints,
starting from the freshly created database. -/
inductive Reachable : Store → Prop where
  | init : Reachable initStore
  | createPlayer {s req fid now} : Reachable s →
      Reachable (create_player req fid now s).1
  | updatePlayer {s pid u now s' p} : Reachable s →
      update_player pid u now s = .ok (s', p) → Reachable s'
  | deletePlayer {s pid s'} : Reachable s →
      delete_player pid s = .ok s' → Reachable s'
  | uploadPhoto {s pid ext url now s'} : Reachable s →
      upload_player_photo pid ext url now s = .ok s' → Reachable s'
  | createPartita {s req} : Reachable s → Reachable (create_partita req s).1
  | updatePartita {s pid u s' pa} : Reachable s →
      update_partita pid u s = .ok (s', pa) → Reachable s'
  | deletePartita {s pid s'} : Reachable s →
      delete_partita pid s = .ok s' → Reachable s'
  | createFormazione {s fs} : Reachable s → Reachable (create_formazione s fs).1
  | deleteFormazione {s fid s'} : Reachable s →
      delete_formazione fid s = .ok s' → Reachable s'
  | replaceFormazioni {s pid fs s' l} : Reachable s →
      update_formazioni_by_partita s pid fs = .ok (s', l) → Reachable s'
  | createGol {s g s' r} : Reachable s →
      create_gol s g = .ok (s', r) → Reachable s'
  | deleteGol {s gid s'} : Reachable s →
      delete_gol gid s = .ok s' → Reachable s'

/-- No two rows of a formazioni table share a (partita_id, giocatore_id)
pair. -/
def lineupOk (l : List FormazioneRec) : Prop :=
  l.Pairwise (fun f g => ¬ (f.partita_id = g.partita_id ∧ f.giocatore_id = g.giocatore_id))

instance (l : List FormazioneRec) : Decidable (lineupOk l) := by
  unfold lineupOk; infer_instance

/-- The request's outcome is a NotFound (HTTP 404) error. -/
def failsNotFound {α : Type} (r : Except ApiError α) : Prop :=
  match r with
  | .error (.notFound _) => True
  | _ => False

instance {α : Type} (r : Except ApiError α) : Decidable (failsNotFound r) := by
  unfold failsNotFound
  rcases r with e | v
  · rcases e with d | d | d | _ <;> simp <;> infer_instance
  · infer_instance

/-- The rows a successful batch insert of `fs` appends, ids counting up
from `fid`. -/
def buildRecs : Nat → List FormazioneCreate → List FormazioneRec
  | _, [] => []
  | n, f :: rest => mkFormazioneRec n f :: buildRecs (n + 1) rest

/- ===== Concrete fixtures used by examples, witnesses and
counterexamples. ===== -/

/-- All nine skills at the default 5. -/
def skillsAllFive : PlayerSkills :=
  { speed := 5, passing := 5, attack := 5, defense := 5, technique := 5
    goalkeeping := 5, heading := 5, stamina := 5, leadership := 5 }

/-- A stored goalkeeper row with goalkeeping = defense = technique =
leadership = 10 (the example of spec section 8). -/
def exGoalkeeper : PlayerDBRec :=
  { id := "gk", name := "gk", role := .GOALKEEPER, photo_url := none
    speed := 1, passing := 1, attack := 1, defense := 10, technique := 10
    goalkeeping := 10, heading := 1, stamina := 1, leadership := 10
    created_at := 0, updated_at := 0
    goals_scored := 0, assists := 0, gold_medals := 0, silver_medals := 0
    bronze_medals := 0 }

/-- A stored midfielder row with all nine skills 5. -/
def exMidfielder : PlayerDBRec :=
  { id := "mid", name := "mid", role := .MIDFIELDER, photo_url := none
    speed := 5, passing := 5, attack := 5, defense := 5, technique := 5
    goalkeeping := 5, heading := 5, stamina := 5, leadership := 5
    created_at := 0, updated_at := 0
    goals_scored := 0, assists := 0, gold_medals := 0, silver_medals := 0
    bronze_medals := 0 }

/-- A store holding exactly one match (id 1) and one forward (id "p1"),
built through the service's own create endpoints. -/
def cexStore : Store :=
  (create_player { name := "p", role := .FORWARD, skills := skillsAllFive } "p1" 0
    (create_partita { data_partita := 1 } initStore).1).1

/-- A lineup entry for match 1 and player "p1". -/
def cexEntry : FormazioneCreate := { partita_id := 1, giocatore_id := "p1", squadra := .A }

/- ===== C1 / C8: the rating calculator. ===== -/

/-- C1: for skills in [1,10] the overall rating equals the role-specific
weighted sum divided by the role's divisor with truncation (GOALKEEPER /7,
DEFENDER /8, MIDFIELDER /8, anything else the FORWARD formula /8); a
goalkeeper with goalkeeping = defense = technique = leadership = 10 rates
10 and a midfielder with all skills 5 rates 5. -/
theorem rating_matches_spec_formula (p : PlayerDBRec) (h : skillsInRange p) :
    calculate_overall_rating p = rating_spec p.role (playerSkillsOf p) ∧
    calculate_overall_rating exGoalkeeper = 10 ∧
    calculate_overall_rating exMidfielder = 5 := by
  refine ⟨?_, by decide, by decide⟩
  cases hr : p.role <;>
    simp [calculate_overall_rating, rating_spec, playerSkillsOf, hr]

/-- Witness for C1 at the all-fives midfielder. -/
theorem rating_matches_spec_formula_witness :
    calculate_overall_rating exMidfielder =
      rating_spec exMidfielder.role (playerSkillsOf exMidfielder) :=
  (rating_matches_spec_formula exMidfielder (by decide)).1

/-- C8: for skills in [1,10] the rating is an integer between 0 and 10,
with no clamping: the weighted numerator of each role's formula is at most
ten times its divisor. -/
theorem rating_bounded (p : PlayerDBRec) (h : skillsInRange p) :
    0 ≤ calculate_overall_rating p ∧ calculate_overall_rating p ≤ 10 := by
  obtain ⟨hsp, hpa, hat, hde, hte, hgk, hhe, hst, hle⟩ := h
  refine ⟨Nat.zero_le _, ?_⟩
  unfold calculate_overall_rating
  split_ifs <;> omega

/-- Witness for C8 at the section-8 goalkeeper example. -/
theorem rating_bounded_witness :
    0 ≤ calculate_overall_rating exGoalkeeper ∧
    calculate_overall_rating exGoalkeeper ≤ 10 :=
  rating_bounded exGoalkeeper (by decide)

/- ===== C3 / C9: the goalkeeper creation-time default. ===== -/

/-- C3: a create-player request with role GOALKEEPER whose skills object
does not supply goalkeeping stores goalkeeping = 8, whatever the other
skill fields hold; and a later role change to GOALKEEPER through update
(with no skills object) does not touch goalkeeping — it only rewrites the
role and updated_at. -/
theorem goalkeeper_default_at_creation_only :
    (∀ (i : PlayerSkillsInput) (nm fid : String) (c1 c2 c3 c4 c5 : Int)
       (now : Nat) (s : Store),
      i.goalkeeping = none →
      ((create_player
          { name := nm, role := .GOALKEEPER, skills := i.parse, goals_scored := c1
            assists := c2, gold_medals := c3, silver_medals := c4, bronze_medals := c5 }
          fid now s).2).goalkeeping = 8)
    ∧ (∀ (pid : String) (now : Nat) (s : Store) (p : PlayerDBRec),
        s.players.find? (fun q => q.id == pid) = some p →
        update_player pid { role := some .GOALKEEPER } now s =
          .ok ({ s with players := s.players.map (fun r =>
                  if r.id == pid then { p with role := .GOALKEEPER, updated_at := now } else r) },
               { p with role := .GOALKEEPER, updated_at := now })) := by
  constructor
  · intro i nm fid c1 c2 c3 c4 c5 now s _
    rfl
  · intro pid now s p hf
    unfold update_player
    rw [hf]
    rfl

/-- Witness for C3: create with an omitted goalkeeping field, then flip an
existing forward's role to GOALKEEPER and observe goalkeeping survive. -/
theorem goalkeeper_default_at_creation_only_witness :
    ((create_player
        { name := "n", role := .GOALKEEPER
          skills := PlayerSkillsInput.parse { speed := some 9 }, goals_scored := 0
          assists := 0, gold_medals := 0, silver_medals := 0, bronze_medals := 0 }
        "g2" 3 initStore).2).goalkeeping = 8 ∧
    update_player "p1" { role := some .GOALKEEPER } 7 cexStore =
      .ok ({ cexStore with players := cexStore.players.map (fun r =>
              if r.id == "p1" then
                { (create_player { name := "p", role := .FORWARD, skills := skillsAllFive }
                    "p1" 0 (create_partita { data_partita := 1 } initStore).1).2 with
                  role := .GOALKEEPER, updated_at := 7 }
              else r) },
           { (create_player { name := "p", role := .FORWARD, skills := skillsAllFive }
               "p1" 0 (create_partita { data_partita := 1 } initStore).1).2 with
             role := .GOALKEEPER, updated_at := 7 }) :=
  ⟨(goalkeeper_default_at_creation_only).1 { speed := some 9 } "n" "g2" 0 0 0 0 0 3 initStore rfl,
   (goalkeeper_default_at_creation_only).2 "p1" 7 cexStore _ rfl⟩

/-- C9: the creation path overwrites goalkeeping with 8 for every
goalkeeper request, even when the request explicitly carries a different
goalkeeping value — the supplied value is silently discarded.  The second
conjunct pins the stored row: it is exactly the returned record appended
to the table. -/
theorem goalkeeper_explicit_value_discarded (req : PlayerCreate) (fid : String)
    (now : Nat) (s : Store) (h : req.role = .GOALKEEPER) :
    ((create_player req fid now s).2).goalkeeping = 8 ∧
    ((create_player req fid now s).1).players =
      s.players ++ [(create_player req fid now s).2] := by
  constructor
  · simp [create_player, h]
  · rfl

/-- Witness for C9: the request explicitly asks goalkeeping = 3 and the
stored row still holds 8. -/
theorem goalkeeper_explicit_value_discarded_witness :
    ((create_player
        { name := "n", role := .GOALKEEPER
          skills := { skillsAllFive with goalkeeping := 3 } } "g3" 0 initStore).2).goalkeeping
      = 8 :=
  (goalkeeper_explicit_value_discarded
    { name := "n", role := .GOALKEEPER, skills := { skillsAllFive with goalkeeping := 3 } }
    "g3" 0 initStore rfl).1

/- ===== C7 / C10: partial-update semantics. ===== -/

/-- C7: an update carrying only a name rewrites exactly the name and
updated_at of the stored row: role, photo URL, all nine skills and all five
counters keep their prior values, and updated_at advances to the strictly
later clock value. -/
theorem update_name_only_frame (pid nm : String) (now : Nat) (s : Store)
    (p : PlayerDBRec) (hf : s.players.find? (fun q => q.id == pid) = some p)
    (hclock : p.updated_at < now) :
    update_player pid { name := some nm } now s =
      .ok ({ s with players := s.players.map (fun r =>
              if r.id == pid then { p with name := nm, updated_at := now } else r) },
           { p with name := nm, updated_at := now }) ∧
    p.updated_at < ({ p with name := nm, updated_at := now } : PlayerDBRec).updated_at := by
  constructor
  · unfold update_player
    rw [hf]
    rfl
  · exact hclock

/-- Witness for C7 on the one-player fixture store. -/
theorem update_name_only_frame_witness :
    update_player "p1" { name := some "renamed" } 5 cexStore =
      .ok ({ cexStore with players := cexStore.players.map (fun r =>
              if r.id == "p1" then
                { (create_player { name := "p", role := .FORWARD, skills := skillsAllFive }
                    "p1" 0 (create_partita { data_partita := 1 } initStore).1).2 with
                  name := "renamed", updated_at := 5 }
              else r) },
           { (create_player { name := "p", role := .FORWARD, skills := skillsAllFive }
               "p1" 0 (create_partita { data_partita := 1 } initStore).1).2 with
             name := "renamed", updated_at := 5 }) :=
  (update_name_only_frame "p1" "renamed" 5 cexStore _ rfl (by decide)).1

/-- C10: an update that supplies a skills object overwrites all nine skill
columns from the parsed object: a skill omitted from the supplied JSON is
stored as the Pydantic default 5, not as the player's prior value, so
nested skill-level partial update does not exist at the interface. -/
theorem skills_update_overwrites_all_nine (pid : String) (i : PlayerSkillsInput)
    (now : Nat) (s : Store) (p : PlayerDBRec)
    (hf : s.players.find? (fun q => q.id == pid) = some p) :
    update_player pid { skills := some i.parse } now s =
      .ok ({ s with players := s.players.map (fun r =>
              if r.id == pid then
                { p with
                  speed := i.speed.getD 5, passing := i.passing.getD 5
                  attack := i.attack.getD 5, defense := i.defense.getD 5
                  technique := i.technique.getD 5, goalkeeping := i.goalkeeping.getD 5
                  heading := i.heading.getD 5, stamina := i.stamina.getD 5
                  leadership := i.leadership.getD 5, updated_at := now }
              else r) },
           { p with
             speed := i.speed.getD 5, passing := i.passing.getD 5
             attack := i.attack.getD 5, defense := i.defense.getD 5
             technique := i.technique.getD 5, goalkeeping := i.goalkeeping.getD 5
             heading := i.heading.getD 5, stamina := i.stamina.getD 5
             leadership := i.leadership.getD 5, updated_at := now }) := by
  unfold update_player
  rw [hf]
  rfl

/-- Witness for C10: only speed is supplied; the other eight skills of the
stored forward drop to 5 (they already were 5) and speed becomes 9. -/
theorem skills_update_overwrites_all_nine_witness :
    update_player "p1" { skills := some (PlayerSkillsInput.parse { speed := some 9 }) } 4
        cexStore =
      .ok ({ cexStore with players := cexStore.players.map (fun r =>
              if r.id == "p1" then
                { (create_player { name := "p", role := .FORWARD, skills := skillsAllFive }
                    "p1" 0 (create_partita { data_partita := 1 } initStore).1).2 with
                  speed := 9, passing := 5, attack := 5, defense := 5, technique := 5
                  goalkeeping := 5, heading := 5, stamina := 5, leadership := 5
                  updated_at := 4 }
              else r) },
           { (create_player { name := "p", role := .FORWARD, skills := skillsAllFive }
               "p1" 0 (create_partita { data_partita := 1 } initStore).1).2 with
             speed := 9, passing := 5, attack := 5, defense := 5, technique := 5
             goalkeeping := 5, heading := 5, stamina := 5, leadership := 5
             updated_at := 4 }) :=
  skills_update_overwrites_all_nine "p1" { speed := some 9 } 4 cexStore _ rfl

/- ===== C5: the two per-match listing endpoints are asymmetric. ===== -/

/-- C5: listing the goals of an existing match with no recorded goals
succeeds with the empty list, listing the goals of an absent match is
NotFound, while listing the lineup of any match id with zero lineup
entries is NotFound instead of an empty list. -/
theorem match_listings_asymmetric (s : Store) (pid : Nat) :
    ((s.partite.find? (fun pa => pa.id == pid)).isSome →
      s.gol.filter (fun g => g.partita_id == pid) = [] →
      get_gol_by_partita s pid = .ok [])
    ∧ (s.partite.find? (fun pa => pa.id == pid) = none →
      get_gol_by_partita s pid = .error (.notFound "Partita not found"))
    ∧ (s.formazioni.filter (fun f => f.partita_id == pid) = [] →
      get_formazioni_by_partita s pid =
        .error (.notFound "Formazioni not found for this partita")) := by
  refine ⟨?_, ?_, ?_⟩
  · intro hsome hnone
    obtain ⟨pa, hpa⟩ := Option.isSome_iff_exists.mp hsome
    unfold get_gol_by_partita
    rw [hpa, hnone]
  · intro hnone
    unfold get_gol_by_partita
    rw [hnone]
  · intro hempty
    unfold get_formazioni_by_partita
    rw [hempty]
    rfl

/-- Witness for C5 on the fixture store (match 1 exists, no goals, no
lineup entries). -/
theorem match_listings_asymmetric_witness :
    get_gol_by_partita cexStore 1 = .ok [] ∧
    get_gol_by_partita cexStore 99 = .error (.notFound "Partita not found") ∧
    get_formazioni_by_partita cexStore 1 =
      .error (.notFound "Formazioni not found for this partita") :=
  ⟨(match_listings_asymmetric cexStore 1).1 (by decide) (by decide),
   (match_listings_asymmetric cexStore 99).2.1 (by decide),
   (match_listings_asymmetric cexStore 1).2.2 (by decide)⟩

/- ===== C6: goal creation and the assist existence check. ===== -/

/-- C6 (amended): a create-goal request whose assist id is present,
NON-EMPTY and names no existing player fails with NotFound and persists
nothing; when the assist id is the empty string the handler's truthiness
guard skips the existence check and the insert instead dies on the gol
table's foreign key at commit — an integrity error, not NotFound — still
persisting nothing (an error outcome always leaves the caller's store as
the pre-state).  A goal row is persisted only when the match, the scorer
and every present assist id exist. -/
theorem gol_assist_existence (s : Store) (g : GolCreate) :
    (∀ a : String, g.assist_giocatore_id = some a → a ≠ "" →
      s.players.find? (fun pl => pl.id == a) = none →
      failsNotFound (create_gol s g))
    ∧ (∀ (s' : Store) (r : GolRec) (a : String), create_gol s g = .ok (s', r) →
        ((s.partite.find? (fun pa => pa.id == g.partita_id)).isSome ∧
         (s.players.find? (fun pl => pl.id == g.giocatore_id)).isSome) ∧
        (g.assist_giocatore_id = some a →
          (s.players.find? (fun pl => pl.id == a)).isSome)) := by
  constructor
  · intro a ha hne hmiss
    unfold create_gol
    cases hpa : s.partite.find? (fun pa => pa.id == g.partita_id) with
    | none => trivial
    | some pa =>
      cases hpl : s.players.find? (fun pl => pl.id == g.giocatore_id) with
      | none => trivial
      | some pl =>
        have htruthy : strTruthy g.assist_giocatore_id = true := by
          rw [ha]; simpa [strTruthy] using hne
        simp [htruthy, ha, hmiss, failsNotFound, strTruthy, hne]
  · intro s' r a hok
    unfold create_gol at hok
    cases hpa : s.partite.find? (fun pa => pa.id == g.partita_id) with
    | none => rw [hpa] at hok; exact absurd hok (by simp)
    | some pa =>
      cases hpl : s.players.find? (fun pl => pl.id == g.giocatore_id) with
      | none => rw [hpa, hpl] at hok; exact absurd hok (by simp)
      | some pl =>
        rw [hpa, hpl] at hok
        refine ⟨⟨by simp [hpa], by simp [hpl]⟩, ?_⟩
        intro ha
        have hfk : golFKOk s
            { id := s.next_gol_id, partita_id := g.partita_id
              giocatore_id := g.giocatore_id, minuto := g.minuto, squadra := g.squadra
              tipo_gol := g.tipo_gol, assist_giocatore_id := g.assist_giocatore_id }
            = true := by
          by_cases ht : strTruthy g.assist_giocatore_id = true
          · rw [ht] at hok
            simp only [if_true] at hok
            by_cases hs : (s.players.find? (fun pl => pl.id == g.assist_giocatore_id.getD "")).isSome = true
            · rw [if_pos hs] at hok
              unfold commitGol at hok
              by_cases hfk : golFKOk s
                  { id := s.next_gol_id, partita_id := g.partita_id
                    giocatore_id := g.giocatore_id, minuto := g.minuto
                    squadra := g.squadra, tipo_gol := g.tipo_gol
                    assist_giocatore_id := g.assist_giocatore_id } = true
              · exact hfk
              · rw [if_neg hfk] at hok; exact absurd hok (by simp)
            · rw [if_neg hs] at hok; exact absurd hok (by simp)
          · simp only [Bool.not_eq_true] at ht
            rw [ht] at hok
            simp only [Bool.false_eq_true, if_false] at hok
            unfold commitGol at hok
            by_cases hfk : golFKOk s
                { id := s.next_gol_id, partita_id := g.partita_id
                  giocatore_id := g.giocatore_id, minuto := g.minuto
                  squadra := g.squadra, tipo_gol := g.tipo_gol
                  assist_giocatore_id := g.assist_giocatore_id } = true
            · exact hfk
            · rw [if_neg hfk] at hok; exact absurd hok (by simp)
        unfold golFKOk at hfk
        rw [ha] at hfk
        simp only [Bool.and_eq_true] at hfk
        have := hfk.2
        rw [List.find?_isSome]
        simpa [List.any_eq_true] using this

/-- Witness for C6: assist id "zz" names no player, so the creation fails
NotFound; and a successful creation (no assist) implies the match and the
scorer exist. -/
theorem gol_assist_existence_witness :
    failsNotFound (create_gol cexStore
      { partita_id := 1, giocatore_id := "p1", minuto := 10, squadra := .A
        assist_giocatore_id := some "zz" }) :=
  (gol_assist_existence cexStore
    { partita_id := 1, giocatore_id := "p1", minuto := 10, squadra := .A
      assist_giocatore_id := some "zz" }).1 "zz" rfl (by decide) (by decide)

/-- Counterexample to C6 as frozen: with match 1 and player "p1" present,
an assist id that is the empty string is "present" and names no player,
yet the request does not fail with NotFound — the truthiness guard skips
the handler's check and the commit raises the unhandled foreign-key
integrity error. -/
theorem gol_empty_assist_not_notfound :
    create_gol cexStore
      { partita_id := 1, giocatore_id := "p1", minuto := 10, squadra := .A
        assist_giocatore_id := some "" } = .error .integrityError := by
  rfl

/- ===== Helper lemmas about formazioni inserts and the two loops. ===== -/

/-- A successful insert appends exactly the freshly numbered row. -/
theorem insert_formazione_of_no_conflict {s : Store} {f : FormazioneCreate}
    (hc : formazioneConflict s.formazioni f.partita_id f.giocatore_id = false) :
    insert_formazione s f =
      some ({ s with
              formazioni := s.formazioni ++ [mkFormazioneRec s.next_formazione_id f]
              next_formazione_id := s.next_formazione_id + 1 },
            mkFormazioneRec s.next_formazione_id f) := by
  unfold insert_formazione
  rw [hc]
  rfl

/-- Characterisation of a successful insert. -/
theorem insert_formazione_eq {s : Store} {f : FormazioneCreate} {s1 : Store}
    {r : FormazioneRec} (h : insert_formazione s f = some (s1, r)) :
    formazioneConflict s.formazioni f.partita_id f.giocatore_id = false ∧
    r = mkFormazioneRec s.next_formazione_id f ∧
    s1 = { s with
           formazioni := s.formazioni ++ [mkFormazioneRec s.next_formazione_id f]
           next_formazione_id := s.next_formazione_id + 1 } := by
  by_cases hc : formazioneConflict s.formazioni f.partita_id f.giocatore_id = true
  · unfold insert_formazione at h
    rw [hc] at h
    exact absurd h (by simp)
  · have hc' : formazioneConflict s.formazioni f.partita_id f.giocatore_id = false := by
      simpa using hc
    rw [insert_formazione_of_no_conflict hc'] at h
    obtain ⟨h1, h2⟩ := Prod.mk.injEq .. ▸ Option.some.injEq .. ▸ h
    exact ⟨hc', h2.symm, h1.symm⟩

/-- Filtering a match's rows out leaves nothing that can conflict with an
insert for that match. -/
theorem conflict_filter_self (l : List FormazioneRec) (pid : Nat) (gid : String) :
    formazioneConflict (l.filter (fun g => ¬ g.partita_id == pid)) pid gid = false := by
  rw [formazioneConflict, List.any_eq_false]
  intro g hg
  have hne := (List.mem_filter.mp hg).2
  simp only [Bool.and_eq_true, beq_iff_eq, not_and]
  intro hp
  simp [hp] at hne

/-- A successful insert never touches the other tables. -/
theorem insert_formazione_frame {s : Store} {f : FormazioneCreate} {s1 : Store}
    {r : FormazioneRec} (h : insert_formazione s f = some (s1, r)) :
    s1.players = s.players ∧ s1.partite = s.partite := by
  obtain ⟨-, -, h3⟩ := insert_formazione_eq h
  rw [h3]
  exact ⟨rfl, rfl⟩

/-- The replace loop succeeds on a batch of valid, pairwise-distinct
entries and appends exactly the freshly numbered rows. -/
theorem replace_formazioni_go_ok {pid : Nat} :
    ∀ (fs : List FormazioneCreate) (s : Store),
    (∀ f ∈ fs, f.partita_id = pid) →
    (∀ f ∈ fs, (s.players.find? (fun pl => pl.id == f.giocatore_id)).isSome) →
    (fs.map (fun f => f.giocatore_id)).Nodup →
    (∀ f ∈ fs, formazioneConflict s.formazioni pid f.giocatore_id = false) →
    replace_formazioni_go pid s fs =
      .ok ({ s with
             formazioni := s.formazioni ++ buildRecs s.next_formazione_id fs
             next_formazione_id := s.next_formazione_id + fs.length },
           buildRecs s.next_formazione_id fs)
  | [], s, _, _, _, _ => by
    cases s
    simp [replace_formazioni_go, buildRecs]
  | f :: rest, s, h1, h2, h3, h4 => by
    have hfp : f.partita_id = pid := h1 f (by simp)
    obtain ⟨pl, hpl⟩ := Option.isSome_iff_exists.mp (h2 f (by simp))
    have hconf : formazioneConflict s.formazioni f.partita_id f.giocatore_id = false := by
      rw [hfp]; exact h4 f (by simp)
    have hgid : f.giocatore_id ∉ rest.map (fun f => f.giocatore_id) :=
      (List.nodup_cons.mp h3).1
    have ih := replace_formazioni_go_ok rest
      { s with
        formazioni := s.formazioni ++ [mkFormazioneRec s.next_formazione_id f]
        next_formazione_id := s.next_formazione_id + 1 }
      (fun g hg => h1 g (by simp [hg]))
      (fun g hg => h2 g (by simp [hg]))
      (List.nodup_cons.mp h3).2
      (by
        intro g hg
        rw [formazioneConflict, List.any_eq_false]
        intro x hx
        rcases List.mem_append.mp hx with hx1 | hx2
        · have := (List.any_eq_false.mp (h4 g (by simp [hg]))) x hx1
          simpa [formazioneConflict] using this
        · have hxr : x = mkFormazioneRec s.next_formazione_id f := by simpa using hx2
          subst hxr
          simp only [mkFormazioneRec, Bool.and_eq_true, beq_iff_eq, not_and]
          intro _
          intro hgg
          exact hgid (by
            have hmem : g.giocatore_id ∈ rest.map (fun f => f.giocatore_id) :=
              List.mem_map.mpr ⟨g, hg, rfl⟩
            rw [hgg]; exact hmem))
    unfold replace_formazioni_go
    rw [if_neg (by simp [hfp])]
    simp only [hpl, insert_formazione_of_no_conflict hconf, ih]
    have hlen : s.next_formazione_id + 1 + rest.length =
        s.next_formazione_id + (rest.length + 1) := by omega
    simp [buildRecs, List.append_assoc, List.length_cons, hlen]

/-- If the replace loop succeeds, every entry of the batch had the URL's
match id and named an existing player. -/
theorem replace_formazioni_go_valid {pid : Nat} :
    ∀ (fs : List FormazioneCreate) (s s2 : Store) (l : List FormazioneRec),
    replace_formazioni_go pid s fs = .ok (s2, l) →
    ∀ f ∈ fs, f.partita_id = pid ∧
      (s.players.find? (fun pl => pl.id == f.giocatore_id)).isSome
  | [], _, _, _, _ => by simp
  | f :: rest, s, s2, l, h => by
    unfold replace_formazioni_go at h
    by_cases hp : f.partita_id = pid
    · rw [if_neg (not_not_intro hp)] at h
      cases hpl : s.players.find? (fun pl => pl.id == f.giocatore_id) with
      | none => simp [hpl] at h
      | some pl =>
        simp only [hpl] at h
        cases hins : insert_formazione s f with
        | none => simp [hins] at h
        | some pr =>
          obtain ⟨s1, r⟩ := pr
          simp only [hins] at h
          cases hrec : replace_formazioni_go pid s1 rest with
          | error e => simp [hrec] at h
          | ok pr2 =>
            obtain ⟨s3, rs⟩ := pr2
            simp only [hrec] at h
            have ihall := replace_formazioni_go_valid rest s1 s3 rs hrec
            intro g hg
            rcases List.mem_cons.mp hg with hgf | hgr
            · subst hgf
              exact ⟨hp, by rw [hpl]; rfl⟩
            · have := ihall g hgr
              rwa [(insert_formazione_frame hins).1] at this
    · rw [if_pos hp] at h
      exact absurd h (by simp)

/-- A conflict-checked insert keeps the lineup pairwise distinct. -/
theorem insert_formazione_lineupOk {s : Store} {f : FormazioneCreate} {s1 : Store}
    {r : FormazioneRec} (h : insert_formazione s f = some (s1, r))
    (hok : lineupOk s.formazioni) : lineupOk s1.formazioni := by
  obtain ⟨hc, hr, hs1⟩ := insert_formazione_eq h
  rw [hs1]
  show lineupOk (s.formazioni ++ [mkFormazioneRec s.next_formazione_id f])
  rw [lineupOk, List.pairwise_append]
  refine ⟨hok, List.pairwise_singleton _ _, ?_⟩
  intro a ha b hb
  have hbr : b = mkFormazioneRec s.next_formazione_id f := by simpa using hb
  subst hbr
  have hall := List.any_eq_false.mp hc a ha
  simp only [Bool.and_eq_true, beq_iff_eq, not_and] at hall
  simp only [mkFormazioneRec, not_and]
  intro h1 h2
  exact hall h1 h2

/-- The per-entry commit loop of POST /api/formazioni keeps the lineup
pairwise distinct, whatever mix of successes and failures happens. -/
theorem create_formazione_go_lineupOk :
    ∀ (fs : List FormazioneCreate) (s : Store), lineupOk s.formazioni →
      lineupOk (create_formazione_go s fs).1.formazioni
  | [], _, h => h
  | f :: rest, s, h => by
    unfold create_formazione_go
    cases hpa : s.partite.find? (fun pa => pa.id == f.partita_id) with
    | none => simp only [hpa]; exact h
    | some pa =>
      simp only [hpa]
      cases hpl : s.players.find? (fun pl => pl.id == f.giocatore_id) with
      | none => simp only [hpl]; exact h
      | some pl =>
        simp only [hpl]
        cases hins : insert_formazione s f with
        | none => simp only [hins]; exact h
        | some pr =>
          obtain ⟨s1, r⟩ := pr
          simp only [hins]
          have h1 := insert_formazione_lineupOk hins h
          have ih := create_formazione_go_lineupOk rest s1 h1
          cases hgo : create_formazione_go s1 rest with
          | mk s2 res =>
            rw [hgo] at ih
            cases res <;> exact ih

/-- The transactional replace loop keeps the lineup pairwise distinct. -/
theorem replace_formazioni_go_lineupOk :
    ∀ (fs : List FormazioneCreate) (pid : Nat) (s s2 : Store) (l : List FormazioneRec),
      lineupOk s.formazioni → replace_formazioni_go pid s fs = .ok (s2, l) →
      lineupOk s2.formazioni
  | [], pid, s, s2, l, h, heq => by
    unfold replace_formazioni_go at heq
    obtain ⟨h1, -⟩ := Prod.mk.injEq .. ▸ Except.ok.injEq .. ▸ heq
    rw [← h1]
    exact h
  | f :: rest, pid, s, s2, l, h, heq => by
    unfold replace_formazioni_go at heq
    by_cases hp : f.partita_id = pid
    · rw [if_neg (not_not_intro hp)] at heq
      cases hpl : s.players.find? (fun pl => pl.id == f.giocatore_id) with
      | none => simp [hpl] at heq
      | some pl =>
        simp only [hpl] at heq
        cases hins : insert_formazione s f with
        | none => simp [hins] at heq
        | some pr =>
          obtain ⟨s1, r⟩ := pr
          simp only [hins] at heq
          cases hrec : replace_formazioni_go pid s1 rest with
          | error e => simp [hrec] at heq
          | ok pr2 =>
            obtain ⟨s3, rs⟩ := pr2
            simp only [hrec] at heq
            obtain ⟨h1, -⟩ := Prod.mk.injEq .. ▸ Except.ok.injEq .. ▸ heq
            rw [← h1]
            exact replace_formazioni_go_lineupOk rest pid s1 s3 rs
              (insert_formazione_lineupOk hins h) hrec
    · rw [if_pos hp] at heq
      exact absurd heq (by simp)

/- ===== Frame lemmas: which endpoints leave the formazioni table
untouched. ===== -/

/-- update_player never touches the formazioni table. -/
theorem update_player_frame {pid : String} {u : PlayerUpdate} {now : Nat}
    {s s2 : Store} {p : PlayerDBRec} (h : update_player pid u now s = .ok (s2, p)) :
    s2.formazioni = s.formazioni := by
  unfold update_player at h
  cases hf : s.players.find? (fun q => q.id == pid) with
  | none => simp [hf] at h
  | some q =>
    simp only [hf] at h
    obtain ⟨h1, -⟩ := Prod.mk.injEq .. ▸ Except.ok.injEq .. ▸ h
    rw [← h1]

/-- delete_player never touches the formazioni table. -/
theorem delete_player_frame {pid : String} {s s2 : Store}
    (h : delete_player pid s = .ok s2) : s2.formazioni = s.formazioni := by
  unfold delete_player at h
  cases hf : s.players.find? (fun q => q.id == pid) with
  | none => simp [hf] at h
  | some q =>
    simp only [hf] at h
    by_cases hr : playerReferenced s pid = true
    · rw [if_pos hr] at h; exact absurd h (by simp)
    · rw [if_neg hr] at h
      obtain h1 := Except.ok.injEq .. ▸ h
      rw [← h1]

/-- upload_player_photo never touches the formazioni table. -/
theorem upload_photo_frame {pid ext url : String} {now : Nat} {s s2 : Store}
    (h : upload_player_photo pid ext url now s = .ok s2) :
    s2.formazioni = s.formazioni := by
  unfold upload_player_photo at h
  cases hf : s.players.find? (fun q => q.id == pid) with
  | none => simp [hf] at h
  | some q =>
    simp only [hf] at h
    by_cases he : allowed_extensions.contains ext = true
    · rw [if_pos he] at h
      obtain h1 := Except.ok.injEq .. ▸ h
      rw [← h1]
    · rw [if_neg he] at h; exact absurd h (by simp)

/-- update_partita never touches the formazioni table. -/
theorem update_partita_frame {pid : Nat} {u : PartitaUpdate} {s s2 : Store}
    {pa : PartitaRec} (h : update_partita pid u s = .ok (s2, pa)) :
    s2.formazioni = s.formazioni := by
  unfold update_partita at h
  cases hf : s.partite.find? (fun q => q.id == pid) with
  | none => simp [hf] at h
  | some q =>
    simp only [hf] at h
    obtain ⟨h1, -⟩ := Prod.mk.injEq .. ▸ Except.ok.injEq .. ▸ h
    rw [← h1]

/-- delete_partita never touches the formazioni table (no cascade). -/
theorem delete_partita_frame {pid : Nat} {s s2 : Store}
    (h : delete_partita pid s = .ok s2) : s2.formazioni = s.formazioni := by
  unfold delete_partita at h
  cases hf : s.partite.find? (fun q => q.id == pid) with
  | none => simp [hf] at h
  | some q =>
    simp only [hf] at h
    by_cases hr : partitaReferenced s pid = true
    · rw [if_pos hr] at h; exact absurd h (by simp)
    · rw [if_neg hr] at h
      obtain h1 := Except.ok.injEq .. ▸ h
      rw [← h1]

/-- create_gol never touches the formazioni table. -/
theorem create_gol_frame {s s2 : Store} {g : GolCreate} {r : GolRec}
    (h : create_gol s g = .ok (s2, r)) : s2.formazioni = s.formazioni := by
  have hcommit : ∀ s2 r, commitGol s g = .ok (s2, r) → s2.formazioni = s.formazioni := by
    intro s2 r hc
    unfold commitGol at hc
    by_cases hfk : golFKOk s
        { id := s.next_gol_id, partita_id := g.partita_id
          giocatore_id := g.giocatore_id, minuto := g.minuto, squadra := g.squadra
          tipo_gol := g.tipo_gol, assist_giocatore_id := g.assist_giocatore_id } = true
    · rw [if_pos hfk] at hc
      obtain ⟨h1, -⟩ := Prod.mk.injEq .. ▸ Except.ok.injEq .. ▸ hc
      rw [← h1]
    · rw [if_neg hfk] at hc; exact absurd hc (by simp)
  unfold create_gol at h
  cases hpa : s.partite.find? (fun pa => pa.id == g.partita_id) with
  | none => simp [hpa] at h
  | some pa =>
    simp only [hpa] at h
    cases hpl : s.players.find? (fun pl => pl.id == g.giocatore_id) with
    | none => simp [hpl] at h
    | some pl =>
      simp only [hpl] at h
      by_cases ht : strTruthy g.assist_giocatore_id = true
      · rw [ht] at h
        simp only [if_true] at h
        by_cases hs : (s.players.find?
            (fun pl => pl.id == g.assist_giocatore_id.getD "")).isSome = true
        · rw [if_pos hs] at h; exact hcommit s2 r h
        · rw [if_neg hs] at h; exact absurd h (by simp)
      · simp only [Bool.not_eq_true] at ht
        rw [ht] at h
        simp only [Bool.false_eq_true, if_false] at h
        exact hcommit s2 r h

/-- delete_gol never touches the formazioni table. -/
theorem delete_gol_frame {gid : Nat} {s s2 : Store}
    (h : delete_gol gid s = .ok s2) : s2.formazioni = s.formazioni := by
  unfold delete_gol at h
  cases hf : s.gol.find? (fun g => g.id == gid) with
  | none => simp [hf] at h
  | some q =>
    simp only [hf] at h
    obtain h1 := Except.ok.injEq .. ▸ h
    rw [← h1]

/-- delete_formazione removes rows by primary key; the result is a
filtering of the table. -/
theorem delete_formazione_formazioni {fid : Nat} {s s2 : Store}
    (h : delete_formazione fid s = .ok s2) :
    s2.formazioni = s.formazioni.filter (fun f => ¬ f.id == fid) := by
  unfold delete_formazione at h
  cases hf : s.formazioni.find? (fun f => f.id == fid) with
  | none => simp [hf] at h
  | some q =>
    simp only [hf] at h
    obtain h1 := Except.ok.injEq .. ▸ h
    rw [← h1]

/-- The bulk replace keeps the lineup pairwise distinct. -/
theorem update_formazioni_lineupOk {s : Store} {pid : Nat}
    {fs : List FormazioneCreate} {s2 : Store} {l : List FormazioneRec}
    (h : update_formazioni_by_partita s pid fs = .ok (s2, l))
    (hok : lineupOk s.formazioni) : lineupOk s2.formazioni := by
  unfold update_formazioni_by_partita at h
  cases hpa : s.partite.find? (fun pa => pa.id == pid) with
  | none => simp [hpa] at h
  | some pa =>
    simp only [hpa] at h
    exact replace_formazioni_go_lineupOk fs pid
      { s with formazioni := s.formazioni.filter (fun g => ¬ g.partita_id == pid) } s2 l
      (List.Pairwise.filter _ hok) h

/-- Every store state reachable through the service keeps the lineup
pairwise distinct. -/
theorem reachable_lineupOk (s : Store) (h : Reachable s) :
    lineupOk s.formazioni := by
  induction h with
  | init => exact List.Pairwise.nil
  | createPlayer _ ih => exact ih
  | updatePlayer _ heq ih => rw [update_player_frame heq]; exact ih
  | deletePlayer _ heq ih => rw [delete_player_frame heq]; exact ih
  | uploadPhoto _ heq ih => rw [upload_photo_frame heq]; exact ih
  | createPartita _ ih => exact ih
  | updatePartita _ heq ih => rw [update_partita_frame heq]; exact ih
  | deletePartita _ heq ih => rw [delete_partita_frame heq]; exact ih
  | createFormazione _ ih => exact create_formazione_go_lineupOk _ _ ih
  | deleteFormazione _ heq ih =>
    rw [delete_formazione_formazioni heq]
    exact List.Pairwise.filter _ ih
  | replaceFormazioni _ heq ih => exact update_formazioni_lineupOk heq ih
  | createGol _ heq ih => rw [create_gol_frame heq]; exact ih
  | deleteGol _ heq ih => rw [delete_gol_frame heq]; exact ih

/- ===== C2: atomicity of the bulk lineup replace. ===== -/

/-- C2 (amended): the replace runs in one transaction, so an error outcome
leaves the caller's store as the untouched pre-state by construction.  Any
entry with a mismatched partita_id or an unknown player makes the whole
operation fail; and when every entry matches the URL's match id, names an
existing player AND the batch repeats no player, the match's lineup is
replaced by exactly the new entries (the rows built from the batch in
order), other matches' rows untouched.  A batch that repeats a player
fails on the lineup unique constraint even though each entry is
individually valid — see the counterexample. -/
theorem bulk_replace_all_or_nothing (s : Store) (pid : Nat)
    (fs : List FormazioneCreate) :
    ((∃ f ∈ fs, f.partita_id ≠ pid ∨
        s.players.find? (fun pl => pl.id == f.giocatore_id) = none) →
      (update_formazioni_by_partita s pid fs).isOk = false)
    ∧ ((s.partite.find? (fun pa => pa.id == pid)).isSome →
       (∀ f ∈ fs, f.partita_id = pid ∧
         (s.players.find? (fun pl => pl.id == f.giocatore_id)).isSome) →
       (fs.map (fun f => f.giocatore_id)).Nodup →
       update_formazioni_by_partita s pid fs =
         .ok ({ s with
                formazioni := s.formazioni.filter (fun g => ¬ g.partita_id == pid) ++
                  buildRecs s.next_formazione_id fs
                next_formazione_id := s.next_formazione_id + fs.length },
              buildRecs s.next_formazione_id fs)) := by
  constructor
  · rintro ⟨f, hf, hbad⟩
    unfold update_formazioni_by_partita
    cases hpa : s.partite.find? (fun pa => pa.id == pid) with
    | none => rfl
    | some pa =>
      simp only [hpa]
      cases hres : replace_formazioni_go pid
          { s with formazioni := s.formazioni.filter (fun g => ¬ g.partita_id == pid) }
          fs with
      | error e => rfl
      | ok pr =>
        obtain ⟨s2, l⟩ := pr
        have hvalid := replace_formazioni_go_valid fs _ s2 l hres f hf
        have hdp : ({ s with
            formazioni := s.formazioni.filter (fun g => ¬ g.partita_id == pid) } :
              Store).players = s.players := rfl
        rcases hbad with hb | hb
        · exact absurd hvalid.1 hb
        · have h2 := hvalid.2
          rw [hdp, hb] at h2
          exact absurd h2 (by simp)
  · intro hpa hvalid hnodup
    obtain ⟨pa, hpa'⟩ := Option.isSome_iff_exists.mp hpa
    unfold update_formazioni_by_partita
    simp only [hpa']
    exact replace_formazioni_go_ok fs
      { s with formazioni := s.formazioni.filter (fun g => ¬ g.partita_id == pid) }
      (fun f hf => (hvalid f hf).1) (fun f hf => (hvalid f hf).2) hnodup
      (fun f _ => conflict_filter_self s.formazioni pid f.giocatore_id)

/-- Witness for C2: replacing the lineup of match 1 with the single valid
entry succeeds and stores exactly that entry. -/
theorem bulk_replace_all_or_nothing_witness :
    update_formazioni_by_partita cexStore 1 [cexEntry] =
      .ok ({ cexStore with
             formazioni := cexStore.formazioni.filter (fun g => ¬ g.partita_id == 1) ++
               buildRecs cexStore.next_formazione_id [cexEntry]
             next_formazione_id := cexStore.next_formazione_id + 1 },
           buildRecs cexStore.next_formazione_id [cexEntry]) :=
  (bulk_replace_all_or_nothing cexStore 1 [cexEntry]).2 (by decide)
    (by decide) (by decide)

/-- Counterexample to C2 as frozen: in the batch [cexEntry, cexEntry] every
entry carries the URL's match id 1 and names the existing player "p1", yet
the replace fails (on the lineup unique constraint) instead of installing
the new entries — so "if every entry is valid the lineup afterwards
consists of the new entries" is false without a no-duplicate proviso. -/
theorem bulk_replace_duplicate_batch_fails :
    cexEntry.partita_id = 1 ∧
    (cexStore.players.find? (fun pl => pl.id == cexEntry.giocatore_id)).isSome = true ∧
    (cexStore.partite.find? (fun pa => pa.id == 1)).isSome = true ∧
    update_formazioni_by_partita cexStore 1 [cexEntry, cexEntry] =
      .error (.badRequest ("Error creating formazione for player " ++
        cexEntry.giocatore_id)) := by
  refine ⟨rfl, rfl, rfl, rfl⟩

/- ===== C4: uniqueness of (match, player) pairs. ===== -/

/-- A store reached by creating match 1, player "p1" and the lineup entry
joining them. -/
def wStore : Store := (create_formazione cexStore [cexEntry]).1

/-- C4: every reachable store keeps each (match id, player id) pair in at
most one lineup row; and a single-entry POST /api/formazioni whose pair
already exists fails with the 400 conflict error while leaving the store —
first entry included — untouched. -/
theorem lineup_pair_at_most_once :
    (∀ s : Store, Reachable s → lineupOk s.formazioni)
    ∧ (∀ (s : Store) (f : FormazioneCreate),
        (s.partite.find? (fun pa => pa.id == f.partita_id)).isSome →
        (s.players.find? (fun pl => pl.id == f.giocatore_id)).isSome →
        (∃ g ∈ s.formazioni, g.partita_id = f.partita_id ∧
          g.giocatore_id = f.giocatore_id) →
        create_formazione s [f] =
          (s, .error (.badRequest ("Error creating formazione for player " ++
            f.giocatore_id)))) := by
  constructor
  · exact fun s h => reachable_lineupOk s h
  · intro s f h1 h2 h3
    obtain ⟨g, hg, hp, hgid⟩ := h3
    obtain ⟨pa, hpa⟩ := Option.isSome_iff_exists.mp h1
    obtain ⟨pl, hpl⟩ := Option.isSome_iff_exists.mp h2
    have hc : formazioneConflict s.formazioni f.partita_id f.giocatore_id = true := by
      rw [formazioneConflict, List.any_eq_true]
      exact ⟨g, hg, by simp [hp, hgid]⟩
    unfold create_formazione create_formazione_go
    simp only [hpa, hpl]
    unfold insert_formazione
    rw [hc]
    rfl

/-- Witness for C4: the reached store wStore has a duplicate-free lineup,
and re-posting its only entry fails with the conflict error and leaves the
store unchanged. -/
theorem lineup_pair_at_most_once_witness :
    lineupOk wStore.formazioni ∧
    create_formazione wStore [cexEntry] =
      (wStore, .error (.badRequest ("Error creating formazione for player " ++
        cexEntry.giocatore_id))) := by
  constructor
  · exact lineup_pair_at_most_once.1 wStore
      (Reachable.createFormazione (Reachable.createPlayer
        (Reachable.createPartita Reachable.init)))
  · exact lineup_pair_at_most_once.2 wStore cexEntry (by decide) (by decide)
      ⟨mkFormazioneRec 1 cexEntry, by decide, by decide, by decide⟩

end Matchday
